import Mathlib

/-!
Shallow embedding of the pinmypic face-recognition inference service
(src/server/face-recognition: config.py, face_processor.py, app.py).

Python floats are modelled as exact rationals (`ℚ`), except where a square
root is required (cosine similarity), where values live in `ℝ`.  Python
dicts holding numeric statistics are modelled as `String → Option ℚ` maps.
The opaque InsightFace detector/embedder and cv2 resampling are modelled as
oracle parameters, as the spec treats them as black-box collaborators.
-/

namespace PinMyPic

/-! ### Configuration (config.py, defaults with environment unread) -/

/-- Default MIN_FACE_SIZE from config.py (env unset, so 50). -/
def MIN_FACE_SIZE : Nat := 50

/-- Default MAX_WORKERS from config.py: 4 with a GPU, else 2. -/
def configMAX_WORKERS (gpu_available : Bool) : Nat :=
  if gpu_available then 4 else 2

/-- Hardcoded MAX_WORKERS = 2 from app.py line 26 (the Flask layer). -/
def appMAX_WORKERS : Nat := 2

/-- Runtime capability flags as computed at the top of config.py. -/
structure Config where
  FORCE_CPU : Bool
  GPU_AVAILABLE : Bool
  CUDA_AVAILABLE : Bool
  ONNX_GPU_AVAILABLE : Bool
  GPU_DEVICE_ID : Nat
deriving DecidableEq

/-! ### Processor state (face_processor.py, FaceProcessor) -/

/-- The processing_stats dict created in FaceProcessor.__init__.
gpu_memory_usage is a nested structure in the source; it is modelled
numerically since no claim depends on its internals. -/
structure ProcessingStats where
  total_processed : Nat
  total_faces_detected : Nat
  average_processing_time : ℚ
  gpu_memory_usage : ℚ
deriving DecidableEq

/-- Mutable fields of a FaceProcessor instance.  det_size is not stored by
the source object; it is recorded here as the size last passed to
app.prepare, so that claims about detection size are statable. -/
structure FaceProcessorState where
  model_loaded : Bool
  using_gpu : Bool
  device_info : String
  det_size : Nat × Nat
  processing_stats : ProcessingStats
deriving DecidableEq

/-- State established by FaceProcessor.__init__ before _initialize_model runs. -/
def initialState : FaceProcessorState :=
  { model_loaded := false
    using_gpu := false
    device_info := ""
    det_size := (0, 0)
    processing_stats :=
      { total_processed := 0
        total_faces_detected := 0
        average_processing_time := 0
        gpu_memory_usage := 0 } }

/-! ### Model initialization with CPU fallback (face_processor.py 36-114)

The call `self.app.prepare(ctx_id, det_size)` (together with constructing
`insightface.app.FaceAnalysis`) is the opaque load attempt; it is modelled
by an oracle `prepareOk : Int → Nat × Nat → Bool` telling whether loading
succeeds for a given ctx_id and detection size. -/

/-- The device_info string chosen on the GPU branch of _initialize_model. -/
def gpuDeviceInfo (cfg : Config) : String :=
  if cfg.CUDA_AVAILABLE then "GPU " ++ toString cfg.GPU_DEVICE_ID ++ " (CUDA)"
  else if cfg.ONNX_GPU_AVAILABLE then "GPU " ++ toString cfg.GPU_DEVICE_ID ++ " (ONNX)"
  else "GPU " ++ toString cfg.GPU_DEVICE_ID

/-- Embedding of FaceProcessor._fallback_to_cpu (face_processor.py 94-114). -/
def fallback_to_cpu (prepareOk : Int → Nat × Nat → Bool)
    (st : FaceProcessorState) : Except String FaceProcessorState :=
  let st1 := { st with using_gpu := false, device_info := "CPU (fallback)" }
  if prepareOk (-1) (640, 640) then
    Except.ok { st1 with model_loaded := true, det_size := (640, 640) }
  else
    Except.error "Both GPU and CPU initialization failed"

/-- Embedding of FaceProcessor._initialize_model (face_processor.py 36-92).
The raised RuntimeError is modelled as Except.error. -/
def initialize_model (cfg : Config) (prepareOk : Int → Nat × Nat → Bool)
    (st : FaceProcessorState) : Except String FaceProcessorState :=
  if cfg.FORCE_CPU || !cfg.GPU_AVAILABLE then
    let st1 := { st with using_gpu := false, device_info := "CPU" }
    if prepareOk (-1) (640, 640) then
      Except.ok { st1 with model_loaded := true, det_size := (640, 640) }
    else
      Except.error "Model initialization failed"
  else
    let st1 := { st with using_gpu := true, device_info := gpuDeviceInfo cfg }
    if prepareOk (cfg.GPU_DEVICE_ID : Int) (1024, 1024) then
      Except.ok { st1 with model_loaded := true, det_size := (1024, 1024) }
    else
      fallback_to_cpu prepareOk st1

/-! ### Image normalizer (face_processor.py 139-162)

An image is its two dimensions from image.shape plus an opaque pixel
buffer.  `cv2.resize(image, (new_width, new_height), INTER_LANCZOS4)` is an
opaque resampler, modelled as an oracle producing the new buffer.
`int(width * scale)` with `scale = max_dim / max(height, width)` truncates
a nonnegative value, i.e. floor division, modelled exactly as
`width * max_dim / max height width` on `Nat`.  `np.ascontiguousarray`
changes memory layout only, not content, so it is content-identity here. -/

structure Image where
  height : Nat
  width : Nat
  pixels : List ℚ
deriving DecidableEq

/-- The max_dim branch at the top of _optimize_image_for_processing. -/
def optMaxDim (using_gpu : Bool) : Nat :=
  if using_gpu then 1920 else 1024

/-- Embedding of FaceProcessor._optimize_image_for_processing (face_processor.py 139-162). -/
def optimize_image_for_processing (using_gpu : Bool)
    (cv2resize : Image → Nat → Nat → List ℚ) (img : Image) : Image :=
  let max_dim := optMaxDim using_gpu
  if optMaxDim using_gpu < max img.height img.width then
    let new_width := img.width * max_dim / max img.height img.width
    let new_height := img.height * max_dim / max img.height img.width
    { height := new_height, width := new_width
      pixels := cv2resize img new_width new_height }
  else
    img

/-! ### Detection pipeline (face_processor.py 164-229)

A raw detection from `self.app.get` carries a bounding box (already taken
through `.astype(int)`, hence integer coordinates x1, y1, x2, y2), a
detection score, the embedding, and the optional attributes probed with
hasattr in the source. -/

structure RawFace where
  bbox : Int × Int × Int × Int
  det_score : ℚ
  embedding : List ℚ
  kps : Option (List (ℚ × ℚ))
  age : Option Int
  gender : Option Int
deriving DecidableEq

/-- The width bbox[2] - bbox[0] computed at face_processor.py 190. -/
def rawWidth (f : RawFace) : Int := f.bbox.2.2.1 - f.bbox.1

/-- The height bbox[3] - bbox[1] computed at face_processor.py 191. -/
def rawHeight (f : RawFace) : Int := f.bbox.2.2.2 - f.bbox.2.1

/-- The face_info dict built for surviving detections (face_processor.py 194-201). -/
structure FaceInfo where
  bbox : Int × Int × Int × Int
  confidence : ℚ
  embedding : List ℚ
  landmarks : Option (List (ℚ × ℚ))
  age : Option Int
  gender : Option String
deriving DecidableEq

def faceInfoOfRaw (f : RawFace) : FaceInfo :=
  { bbox := (f.bbox.1, f.bbox.2.1, rawWidth f, rawHeight f)
    confidence := f.det_score
    embedding := f.embedding
    landmarks := f.kps
    age := f.age
    gender :=
      match f.gender with
      | some g => if g = 1 then some "M" else some "F"
      | none => none }

/-- The size filter condition (face_processor.py 193). -/
def validFace (f : RawFace) : Bool :=
  (MIN_FACE_SIZE : Int) ≤ rawWidth f && (MIN_FACE_SIZE : Int) ≤ rawHeight f

/-- The statistics update block of detect_faces (face_processor.py 206-217).
The source smoothing constants 0.9 and 0.1 are written 9 / 10 and 1 / 10,
the same rationals, to keep the definition kernel-reducible. -/
def updateStats (s : ProcessingStats) (numFaces : Nat)
    (processing_time : ℚ) : ProcessingStats :=
  let s1 := { s with total_processed := s.total_processed + 1
                     total_faces_detected := s.total_faces_detected + numFaces }
  if s1.average_processing_time = 0 then
    { s1 with average_processing_time := processing_time }
  else
    { s1 with average_processing_time :=
        s1.average_processing_time * (9 / 10 : ℚ) + processing_time * (1 / 10 : ℚ) }

/-- Embedding of FaceProcessor.detect_faces (face_processor.py 164-229).

`modelGet` is the opaque `self.app.get`; an exception from it (or anything
inside the try block) is `Except.error` on the oracle side.  The elapsed
wall-clock time `time.time() - start_time` is external input.  The
`except` clause catches every exception raised inside the try block and
returns `[]` without touching the statistics; `_cleanup_gpu_memory`
swallows its own failures and does not affect the modelled state. -/
def detect_faces (modelGet : Image → Except String (List RawFace))
    (cv2resize : Image → Nat → Nat → List ℚ)
    (st : FaceProcessorState) (img : Image) (elapsed : ℚ) :
    Except String (FaceProcessorState × List FaceInfo) :=
  if !st.model_loaded then
    Except.error "Face model not loaded"
  else
    let optimized := optimize_image_for_processing st.using_gpu cv2resize img
    match modelGet optimized with
    | Except.error _ => Except.ok (st, [])
    | Except.ok faces =>
        let valid_faces := (faces.filter validFace).map faceInfoOfRaw
        let stats := updateStats st.processing_stats valid_faces.length elapsed
        Except.ok ({ st with processing_stats := stats }, valid_faces)

/-! ### Similarity matcher (app.py 245-261, compare_faces)

Embeddings are lists of rationals (JSON floats).  np.dot is the sum of
pointwise products, np.linalg.norm the square root of the self dot
product; the quotient lives in `ℝ`.  `matches.sort(key=similarity,
reverse=True)` is a stable sort descending by similarity, modelled with
`List.mergeSort` on the flipped order. -/

def dotQ (p c : List ℚ) : ℚ := (List.zipWith (fun a b => a * b) p c).sum

noncomputable def normQ (v : List ℚ) : ℝ := Real.sqrt ((dotQ v v : ℚ) : ℝ)

/-- Cosine similarity as computed at app.py 251-253. -/
noncomputable def cosineSimilarity (p c : List ℚ) : ℝ :=
  ((dotQ p c : ℚ) : ℝ) / (normQ p * normQ c)

/-- One element of the stored-embeddings request payload. -/
structure StoredEmbedding where
  photoId : String
  embedding : List ℚ
deriving DecidableEq

/-- One entry of the matches list built in compare_faces. -/
structure MatchResult where
  photoId : String
  similarity : ℝ

/-- The matching core of compare_faces (app.py 245-261): build one match
per stored embedding, then sort by similarity descending. -/
noncomputable def compare_faces_matches (selfie_embedding : List ℚ)
    (embeddings : List StoredEmbedding) : List MatchResult :=
  let pairs := embeddings.map fun stored =>
    MatchResult.mk stored.photoId (cosineSimilarity selfie_embedding stored.embedding)
  pairs.mergeSort fun a b => decide (b.similarity ≤ a.similarity)

/-! ### Concurrency admission in process_photo (app.py 110-120)

Each request executing process_photo runs
`processing_lock = threading.Semaphore(MAX_WORKERS)` — a semaphore local
to that single call — and then enters `with processing_lock`.  Acquiring
a semaphore blocks exactly when its counter is 0, and the counter each
request checks is that of its own freshly constructed semaphore, whose
initial value is MAX_WORKERS.  The module-level asyncio semaphore set up
by init_semaphore is never acquired anywhere.  The state is the number of
requests currently inside the with-block. -/

/-- Initial counter of the semaphore a process_photo call acquires. -/
def freshSemaphoreCount : Nat := appMAX_WORKERS

/-- Reachable numbers of simultaneously admitted process_photo calls. -/
inductive ProcessPhotoReachable : Nat → Prop
  | start : ProcessPhotoReachable 0
  | enter (n : Nat) : ProcessPhotoReachable n → 0 < freshSemaphoreCount →
      ProcessPhotoReachable (n + 1)
  | leave (n : Nat) : ProcessPhotoReachable (n + 1) → ProcessPhotoReachable n

/-- Worker count for a parallel batch, face_processor.py 296. -/
def batchWorkerCount (gpu_available : Bool) (numImages : Nat) : Nat :=
  min (configMAX_WORKERS gpu_available) numImages

/-! ### Performance statistics snapshot (face_processor.py 338-355)

get_performance_stats starts from `self.processing_stats.copy()`.  To
state that the returned dict is a copy and not a live reference, dicts
live in a small heap: an address-indexed store of string-keyed numeric
maps.  `.copy()` is allocation of a fresh address holding the same
content.  On a GPU session `_log_gpu_memory` writes the internal dict's
gpu_memory_usage entry (face_processor.py 126); the faces_per_second
entry is written on the copy only when the average is positive. -/

abbrev StatsMap := String → Option ℚ

def StatsMap.set (m : StatsMap) (k : String) (v : ℚ) : StatsMap :=
  fun s => if s = k then some v else m s

structure Heap where
  mem : Nat → StatsMap
  next : Nat

def Heap.alloc (h : Heap) (v : StatsMap) : Heap × Nat :=
  ({ mem := fun a => if a = h.next then v else h.mem a, next := h.next + 1 },
   h.next)

def Heap.write (h : Heap) (a : Nat) (k : String) (v : ℚ) : Heap :=
  { h with mem := fun b => if b = a then (h.mem b).set k v else h.mem b }

/-- Embedding of FaceProcessor.get_performance_stats (face_processor.py 338-355),
for a processor whose processing_stats dict lives at statsAddr.
Returns the heap after the call and the address of the returned dict. -/
def get_performance_stats (using_gpu : Bool) (gpuMemInfo : ℚ)
    (statsAddr : Nat) (h : Heap) : Heap × Nat :=
  let allocated := h.alloc (h.mem statsAddr)
  let h1 := allocated.1
  let copyAddr := allocated.2
  let h2 := if using_gpu then h1.write statsAddr "gpu_memory_usage" gpuMemInfo else h1
  let avg := (h2.mem copyAddr "average_processing_time").getD 0
  let h3 := if 0 < avg then h2.write copyAddr "faces_per_second" (1 / avg) else h2
  (h3, copyAddr)

/-! ### Concrete fixtures for witnesses and counterexamples -/

/-- An opaque model that raises on every input. -/
def errModel : Image → Except String (List RawFace) :=
  fun _ => Except.error "model fault"

/-- An opaque model that returns zero detections. -/
def okEmptyModel : Image → Except String (List RawFace) :=
  fun _ => Except.ok []

/-- A resampler oracle (never reached on in-bounds images). -/
def noResize : Image → Nat → Nat → List ℚ := fun _ _ _ => []

/-- A CPU-session processor state after a successful load. -/
def loadedCpuState : FaceProcessorState :=
  { initialState with model_loaded := true }

def img0 : Image := { height := 100, width := 100, pixels := [] }

/-- A boundary detection: width = height = MIN_FACE_SIZE exactly. -/
def face50 : RawFace :=
  { bbox := (0, 0, 50, 50), det_score := 1, embedding := []
    kps := none, age := none, gender := none }

def okFace50Model : Image → Except String (List RawFace) :=
  fun _ => Except.ok [face50]

/-- State after one detection taking 0.2s (written 1 / 5) on a fresh session. -/
def stAfter1 : FaceProcessorState :=
  { loadedCpuState with
    processing_stats := updateStats loadedCpuState.processing_stats 0 (1 / 5 : ℚ) }

/-- State after a further detection taking 0.1s (written 1 / 10). -/
def stAfter2 : FaceProcessorState :=
  { stAfter1 with
    processing_stats := updateStats stAfter1.processing_stats 0 (1 / 10 : ℚ) }

def stAfterFace50 : FaceProcessorState :=
  { loadedCpuState with
    processing_stats := updateStats loadedCpuState.processing_stats 1 1 }

/-! ### C1 -/

/-- Claim C1: for every input image, if the opaque detection model raises any
exception during a detect call, detect returns an empty sequence instead
of propagating; a caller of detect on a loaded session never observes an
error, so the only structural error detect may raise is the
not-yet-initialized error. -/
theorem detect_faces_swallows_model_exceptions
    (modelGet : Image → Except String (List RawFace))
    (cv2resize : Image → Nat → Nat → List ℚ)
    (st : FaceProcessorState) (img : Image) (elapsed : ℚ)
    (hl : st.model_loaded = true) :
    (detect_faces modelGet cv2resize st img elapsed).isOk = true ∧
    (∀ e, modelGet (optimize_image_for_processing st.using_gpu cv2resize img)
        = Except.error e →
      detect_faces modelGet cv2resize st img elapsed = Except.ok (st, [])) := by
  constructor
  · cases hres : modelGet (optimize_image_for_processing st.using_gpu cv2resize img) <;>
      simp [detect_faces, hl, hres, Except.isOk, Except.toBool]
  · intro e he
    simp [detect_faces, hl, he]

theorem detect_faces_swallows_model_exceptions_witness :
    loadedCpuState.model_loaded = true ∧
    (detect_faces errModel noResize loadedCpuState img0 1).isOk = true ∧
    detect_faces errModel noResize loadedCpuState img0 1
      = Except.ok (loadedCpuState, []) :=
  ⟨rfl,
   (detect_faces_swallows_model_exceptions errModel noResize loadedCpuState img0 1 rfl).1,
   (detect_faces_swallows_model_exceptions errModel noResize loadedCpuState img0 1 rfl).2
     "model fault" rfl⟩

/-! ### C2 -/

/-- Claim C2 counterexample: a detect call in which the opaque model raises
leaves the statistics untouched, so total_processed does not increase by 1
on that call (it stays 0 where the claim requires 1). -/
theorem detect_faces_stats_unchanged_on_model_exception :
    detect_faces errModel noResize loadedCpuState img0 1
      = Except.ok (loadedCpuState, []) ∧
    loadedCpuState.processing_stats.total_processed = 0 ∧
    loadedCpuState.processing_stats.total_processed ≠
      loadedCpuState.processing_stats.total_processed + 1 := by
  refine ⟨rfl, rfl, by decide⟩

/-- Claim C2 (amended): after every call to detect in which the opaque model
does not raise, total_processed increases by exactly 1,
total_faces_detected increases by the length of the returned result, and
average_processing_time becomes elapsed if its previous value was 0, else
previous * 0.9 + elapsed * 0.1; starting from total_processed = 0 and
average 0, a 0.2s detection yields average 0.2 and a subsequent 0.1s
detection yields average 0.19.  (When the model raises, the statistics
are left unchanged.) -/
theorem detect_faces_stats_update_on_success
    (modelGet : Image → Except String (List RawFace))
    (cv2resize : Image → Nat → Nat → List ℚ)
    (st : FaceProcessorState) (img : Image) (elapsed : ℚ)
    (faces : List RawFace)
    (hl : st.model_loaded = true)
    (hok : modelGet (optimize_image_for_processing st.using_gpu cv2resize img)
      = Except.ok faces) :
    (∃ st2 result,
      detect_faces modelGet cv2resize st img elapsed = Except.ok (st2, result) ∧
      st2.processing_stats.total_processed
        = st.processing_stats.total_processed + 1 ∧
      st2.processing_stats.total_faces_detected
        = st.processing_stats.total_faces_detected + result.length ∧
      st2.processing_stats.average_processing_time =
        (if st.processing_stats.average_processing_time = 0 then elapsed
         else st.processing_stats.average_processing_time * (9 / 10 : ℚ)
           + elapsed * (1 / 10 : ℚ))) ∧
    detect_faces okEmptyModel noResize loadedCpuState img0 (1 / 5 : ℚ)
      = Except.ok (stAfter1, []) ∧
    detect_faces okEmptyModel noResize stAfter1 img0 (1 / 10 : ℚ)
      = Except.ok (stAfter2, []) ∧
    stAfter1.processing_stats.average_processing_time = (1 / 5 : ℚ) ∧
    stAfter2.processing_stats.average_processing_time = (19 / 100 : ℚ) := by
  refine ⟨?_, by rfl, by rfl, by rfl,
    by norm_num [stAfter2, stAfter1, loadedCpuState, initialState, updateStats]⟩
  have key : detect_faces modelGet cv2resize st img elapsed =
      Except.ok
        ({ st with processing_stats := updateStats st.processing_stats ((faces.filter validFace).map faceInfoOfRaw).length elapsed },
         (faces.filter validFace).map faceInfoOfRaw) := by
    simp [detect_faces, hl, hok]
  refine ⟨_, _, key, ?_, ?_, ?_⟩ <;>
    simp only [updateStats] <;> split <;> simp

theorem detect_faces_stats_update_on_success_witness :
    loadedCpuState.model_loaded = true ∧
    okEmptyModel (optimize_image_for_processing loadedCpuState.using_gpu noResize img0)
      = Except.ok [] ∧
    (∃ st2 result,
      detect_faces okEmptyModel noResize loadedCpuState img0 (1 / 5 : ℚ)
        = Except.ok (st2, result) ∧
      st2.processing_stats.total_processed
        = loadedCpuState.processing_stats.total_processed + 1 ∧
      st2.processing_stats.total_faces_detected
        = loadedCpuState.processing_stats.total_faces_detected + result.length ∧
      st2.processing_stats.average_processing_time =
        (if loadedCpuState.processing_stats.average_processing_time = 0 then (1 / 5 : ℚ)
         else loadedCpuState.processing_stats.average_processing_time * (9 / 10 : ℚ)
           + (1 / 5 : ℚ) * (1 / 10 : ℚ))) :=
  ⟨rfl, rfl,
   (detect_faces_stats_update_on_success okEmptyModel noResize loadedCpuState img0
     (1 / 5 : ℚ) [] rfl rfl).1⟩

/-! ### C3 -/

/-- Claim C3: for every raw detection produced by the model, its record appears
in the result exactly when its integer bounding-box width and height are
both at least MIN_FACE_SIZE (= 50 by definition); a too-small detection is
silently excluded, and the boundary case width = MIN_FACE_SIZE with
height ≥ MIN_FACE_SIZE is included. -/
theorem detect_faces_min_size_filter
    (modelGet : Image → Except String (List RawFace))
    (cv2resize : Image → Nat → Nat → List ℚ)
    (st st2 : FaceProcessorState) (img : Image) (elapsed : ℚ)
    (faces : List RawFace) (f : RawFace) (result : List FaceInfo)
    (hl : st.model_loaded = true)
    (hok : modelGet (optimize_image_for_processing st.using_gpu cv2resize img)
      = Except.ok faces)
    (hf : f ∈ faces)
    (hres : detect_faces modelGet cv2resize st img elapsed
      = Except.ok (st2, result)) :
    faceInfoOfRaw f ∈ result ↔
      ((MIN_FACE_SIZE : Int) ≤ rawWidth f ∧ (MIN_FACE_SIZE : Int) ≤ rawHeight f) := by
  have hresult : result = (faces.filter validFace).map faceInfoOfRaw := by
    rw [detect_faces] at hres
    simp [hl, hok] at hres
    exact hres.2.symm
  subst hresult
  constructor
  · intro hmem
    obtain ⟨g, hg, hEq⟩ := List.mem_map.mp hmem
    have hgv := (List.mem_filter.mp hg).2
    have hb : (faceInfoOfRaw g).bbox = (faceInfoOfRaw f).bbox := by rw [hEq]
    simp only [faceInfoOfRaw, Prod.mk.injEq] at hb
    simp only [validFace, Bool.and_eq_true, decide_eq_true_eq] at hgv
    exact ⟨hb.2.2.1 ▸ hgv.1, hb.2.2.2 ▸ hgv.2⟩
  · intro ⟨hw, hh⟩
    exact List.mem_map_of_mem _
      (List.mem_filter.mpr ⟨hf, by simp [validFace, hw, hh]⟩)

theorem detect_faces_min_size_filter_witness :
    loadedCpuState.model_loaded = true ∧
    okFace50Model (optimize_image_for_processing loadedCpuState.using_gpu noResize img0)
      = Except.ok [face50] ∧
    face50 ∈ [face50] ∧
    detect_faces okFace50Model noResize loadedCpuState img0 1
      = Except.ok (stAfterFace50, [faceInfoOfRaw face50]) ∧
    rawWidth face50 = (MIN_FACE_SIZE : Int) ∧
    (faceInfoOfRaw face50 ∈ [faceInfoOfRaw face50] ↔
      ((MIN_FACE_SIZE : Int) ≤ rawWidth face50 ∧
       (MIN_FACE_SIZE : Int) ≤ rawHeight face50)) :=
  ⟨rfl, rfl, List.mem_singleton.mpr rfl, rfl, rfl,
   detect_faces_min_size_filter okFace50Model noResize loadedCpuState stAfterFace50
     img0 1 [face50] face50 [faceInfoOfRaw face50] rfl rfl
     (List.mem_singleton.mpr rfl) rfl⟩

/-! ### C4 -/

/-- Claim C4: initialize fails only if both the preferred backend and the CPU
backend fail to load; when the chosen backend is an accelerator (detection
size 1024x1024) and loading fails, it retries exactly once with the CPU
backend at 640x640, and the resulting fallback session differs from a
directly initialized CPU session only in its reported device label; it
errors only if that CPU retry (or an initially chosen CPU backend) also
fails. -/
theorem initialize_model_cpu_fallback
    (cfg : Config) (prepareOk : Int → Nat × Nat → Bool)
    (st : FaceProcessorState) :
    ((∃ e, initialize_model cfg prepareOk st = Except.error e) ↔
      (prepareOk (-1) (640, 640) = false ∧
       ((cfg.FORCE_CPU = false ∧ cfg.GPU_AVAILABLE = true) →
         prepareOk (cfg.GPU_DEVICE_ID : Int) (1024, 1024) = false))) ∧
    ((cfg.FORCE_CPU = false ∧ cfg.GPU_AVAILABLE = true) →
      prepareOk (cfg.GPU_DEVICE_ID : Int) (1024, 1024) = false →
      prepareOk (-1) (640, 640) = true →
      ∃ sess, initialize_model cfg prepareOk st = Except.ok sess ∧
        sess.model_loaded = true ∧ sess.using_gpu = false ∧
        sess.det_size = (640, 640) ∧ sess.device_info = "CPU (fallback)" ∧
        (∀ sessCpu,
          initialize_model { cfg with FORCE_CPU := true } prepareOk st
            = Except.ok sessCpu →
          sess.model_loaded = sessCpu.model_loaded ∧
          sess.using_gpu = sessCpu.using_gpu ∧
          sess.det_size = sessCpu.det_size ∧
          sess.processing_stats = sessCpu.processing_stats)) := by
  constructor
  · cases hF : cfg.FORCE_CPU <;> cases hG : cfg.GPU_AVAILABLE <;>
      cases hcpu : prepareOk (-1) (640, 640) <;>
      cases hgpu : prepareOk (cfg.GPU_DEVICE_ID : Int) (1024, 1024) <;>
      simp [initialize_model, fallback_to_cpu, hF, hG, hcpu, hgpu]
  · rintro ⟨hF, hG⟩ hgpu hcpu
    refine ⟨{ st with using_gpu := false, device_info := "CPU (fallback)", model_loaded := true, det_size := (640, 640) },
      by simp [initialize_model, fallback_to_cpu, hF, hG, hgpu, hcpu],
      rfl, rfl, rfl, rfl, ?_⟩
    intro sessCpu hc
    have hcEq : sessCpu = { st with using_gpu := false, device_info := "CPU", model_loaded := true, det_size := (640, 640) } := by
      simp [initialize_model, hcpu] at hc
      exact hc.symm
    subst hcEq
    exact ⟨rfl, rfl, rfl, rfl⟩

/-- A capability snapshot with an accelerator detected. -/
def cfgGpu : Config :=
  { FORCE_CPU := false, GPU_AVAILABLE := true, CUDA_AVAILABLE := true
    ONNX_GPU_AVAILABLE := false, GPU_DEVICE_ID := 0 }

/-- A load oracle for which only the CPU configuration (640x640) loads. -/
def prepareCpuOnly : Int → Nat × Nat → Bool :=
  fun _ ds => decide (ds = (640, 640))

theorem initialize_model_cpu_fallback_witness :
    (cfgGpu.FORCE_CPU = false ∧ cfgGpu.GPU_AVAILABLE = true) ∧
    prepareCpuOnly (cfgGpu.GPU_DEVICE_ID : Int) (1024, 1024) = false ∧
    prepareCpuOnly (-1) (640, 640) = true ∧
    (∃ sess, initialize_model cfgGpu prepareCpuOnly initialState = Except.ok sess ∧
      sess.model_loaded = true ∧ sess.using_gpu = false ∧
      sess.det_size = (640, 640) ∧ sess.device_info = "CPU (fallback)" ∧
      (∀ sessCpu,
        initialize_model { cfgGpu with FORCE_CPU := true } prepareCpuOnly initialState
          = Except.ok sessCpu →
        sess.model_loaded = sessCpu.model_loaded ∧
        sess.using_gpu = sessCpu.using_gpu ∧
        sess.det_size = sessCpu.det_size ∧
        sess.processing_stats = sessCpu.processing_stats)) :=
  ⟨⟨rfl, rfl⟩, rfl, rfl,
   (initialize_model_cpu_fallback cfgGpu prepareCpuOnly initialState).2
     ⟨rfl, rfl⟩ rfl rfl⟩

/-! ### C7 -/

/-- Floor division stays within one of the exact quotient (upper side). -/
theorem natCast_div_lt_add_one (m n : Nat) (hn : 0 < n) :
    (m : ℚ) / (n : ℚ) < ((m / n : ℕ) : ℚ) + 1 := by
  rw [div_lt_iff₀ (by exact_mod_cast hn)]
  have h1 : m < (m / n + 1) * n := (Nat.div_lt_iff_lt_mul hn).mp (Nat.lt_succ_self _)
  exact_mod_cast h1

/-- Claim C7: normalize with max_dim 1920 for accelerator sessions and 1024 for
CPU sessions returns the image unchanged when max(height, width) is within
max_dim (hence is idempotent there), and otherwise downscales so that the
longer edge equals max_dim, never increasing either dimension, with each
output dimension within one pixel (floor) of the exactly scaled value. -/
theorem optimize_image_bounds (using_gpu : Bool)
    (cv2resize : Image → Nat → Nat → List ℚ) (img : Image) :
    (max img.height img.width ≤ optMaxDim using_gpu →
      optimize_image_for_processing using_gpu cv2resize img = img ∧
      optimize_image_for_processing using_gpu cv2resize
          (optimize_image_for_processing using_gpu cv2resize img)
        = optimize_image_for_processing using_gpu cv2resize img) ∧
    (optMaxDim using_gpu < max img.height img.width →
      ((optimize_image_for_processing using_gpu cv2resize img).height
          = img.height * optMaxDim using_gpu / max img.height img.width ∧
       (optimize_image_for_processing using_gpu cv2resize img).width
          = img.width * optMaxDim using_gpu / max img.height img.width) ∧
      max (optimize_image_for_processing using_gpu cv2resize img).height
          (optimize_image_for_processing using_gpu cv2resize img).width
        = optMaxDim using_gpu ∧
      ((optimize_image_for_processing using_gpu cv2resize img).height ≤ img.height ∧
       (optimize_image_for_processing using_gpu cv2resize img).width ≤ img.width) ∧
      (((optimize_image_for_processing using_gpu cv2resize img).height : ℚ)
          ≤ (img.height : ℚ) * (optMaxDim using_gpu : ℚ) / (max img.height img.width : ℚ) ∧
       (img.height : ℚ) * (optMaxDim using_gpu : ℚ) / (max img.height img.width : ℚ)
          < ((optimize_image_for_processing using_gpu cv2resize img).height : ℚ) + 1 ∧
       ((optimize_image_for_processing using_gpu cv2resize img).width : ℚ)
          ≤ (img.width : ℚ) * (optMaxDim using_gpu : ℚ) / (max img.height img.width : ℚ) ∧
       (img.width : ℚ) * (optMaxDim using_gpu : ℚ) / (max img.height img.width : ℚ)
          < ((optimize_image_for_processing using_gpu cv2resize img).width : ℚ) + 1)) := by
  constructor
  · intro hin
    have h1 : optimize_image_for_processing using_gpu cv2resize img = img := by
      simp [optimize_image_for_processing, Nat.not_lt.mpr hin]
    exact ⟨h1, by rw [h1, h1]⟩
  · intro hout
    have hM : 0 < max img.height img.width := lt_of_le_of_lt (Nat.zero_le _) hout
    have hDM : optMaxDim using_gpu ≤ max img.height img.width := le_of_lt hout
    have hH : (optimize_image_for_processing using_gpu cv2resize img).height
        = img.height * optMaxDim using_gpu / max img.height img.width := by
      simp [optimize_image_for_processing, hout]
    have hW : (optimize_image_for_processing using_gpu cv2resize img).width
        = img.width * optMaxDim using_gpu / max img.height img.width := by
      simp [optimize_image_for_processing, hout]
    refine ⟨⟨hH, hW⟩, ?_, ⟨?_, ?_⟩, ?_, ?_, ?_, ?_⟩
    · rw [hH, hW]
      rcases max_choice img.height img.width with hmx | hmx
      · have hwh : img.width ≤ img.height := by
          have := le_max_right img.height img.width; rw [hmx] at this; exact this
        rw [hmx, Nat.mul_div_cancel_left _ (hmx ▸ hM)]
        exact max_eq_left (le_trans
          (Nat.div_le_div_right (Nat.mul_le_mul_right _ hwh))
          (le_of_eq (Nat.mul_div_cancel_left _ (hmx ▸ hM))))
      · have hhw : img.height ≤ img.width := by
          have := le_max_left img.height img.width; rw [hmx] at this; exact this
        rw [hmx, Nat.mul_div_cancel_left _ (hmx ▸ hM)]
        exact max_eq_right (le_trans
          (Nat.div_le_div_right (Nat.mul_le_mul_right _ hhw))
          (le_of_eq (Nat.mul_div_cancel_left _ (hmx ▸ hM))))
    · rw [hH]
      calc img.height * optMaxDim using_gpu / max img.height img.width
          ≤ img.height * max img.height img.width / max img.height img.width :=
            Nat.div_le_div_right (Nat.mul_le_mul_left _ hDM)
        _ = img.height := Nat.mul_div_cancel img.height hM
    · rw [hW]
      calc img.width * optMaxDim using_gpu / max img.height img.width
          ≤ img.width * max img.height img.width / max img.height img.width :=
            Nat.div_le_div_right (Nat.mul_le_mul_left _ hDM)
        _ = img.width := Nat.mul_div_cancel img.width hM
    · rw [hH]
      calc ((img.height * optMaxDim using_gpu / max img.height img.width : ℕ) : ℚ)
          ≤ ((img.height * optMaxDim using_gpu : ℕ) : ℚ) / ((max img.height img.width : ℕ) : ℚ) :=
            Nat.cast_div_le
        _ = (img.height : ℚ) * (optMaxDim using_gpu : ℚ) / (max img.height img.width : ℚ) := by
            push_cast; ring
    · rw [hH]
      have := natCast_div_lt_add_one (img.height * optMaxDim using_gpu)
        (max img.height img.width) hM
      calc (img.height : ℚ) * (optMaxDim using_gpu : ℚ) / (max img.height img.width : ℚ)
          = ((img.height * optMaxDim using_gpu : ℕ) : ℚ) / ((max img.height img.width : ℕ) : ℚ) := by
            push_cast; ring
        _ < ((img.height * optMaxDim using_gpu / max img.height img.width : ℕ) : ℚ) + 1 := this
    · rw [hW]
      calc ((img.width * optMaxDim using_gpu / max img.height img.width : ℕ) : ℚ)
          ≤ ((img.width * optMaxDim using_gpu : ℕ) : ℚ) / ((max img.height img.width : ℕ) : ℚ) :=
            Nat.cast_div_le
        _ = (img.width : ℚ) * (optMaxDim using_gpu : ℚ) / (max img.height img.width : ℚ) := by
            push_cast; ring
    · rw [hW]
      have := natCast_div_lt_add_one (img.width * optMaxDim using_gpu)
        (max img.height img.width) hM
      calc (img.width : ℚ) * (optMaxDim using_gpu : ℚ) / (max img.height img.width : ℚ)
          = ((img.width * optMaxDim using_gpu : ℕ) : ℚ) / ((max img.height img.width : ℕ) : ℚ) := by
            push_cast; ring
        _ < ((img.width * optMaxDim using_gpu / max img.height img.width : ℕ) : ℚ) + 1 := this

/-- A 3000x2000 image, beyond the CPU bound 1024. -/
def imgLarge : Image := { height := 3000, width := 2000, pixels := [] }

theorem optimize_image_bounds_witness :
    (max img0.height img0.width ≤ optMaxDim false ∧
      optimize_image_for_processing false noResize img0 = img0) ∧
    (optMaxDim false < max imgLarge.height imgLarge.width ∧
      max (optimize_image_for_processing false noResize imgLarge).height
          (optimize_image_for_processing false noResize imgLarge).width
        = optMaxDim false ∧
      (optimize_image_for_processing false noResize imgLarge).height ≤ imgLarge.height ∧
      (optimize_image_for_processing false noResize imgLarge).width ≤ imgLarge.width) :=
  ⟨⟨by decide,
    ((optimize_image_bounds false noResize img0).1 (by decide)).1⟩,
   ⟨by decide,
    ((optimize_image_bounds false noResize imgLarge).2 (by decide)).2.1,
    ((optimize_image_bounds false noResize imgLarge).2 (by decide)).2.2.1.1,
    ((optimize_image_bounds false noResize imgLarge).2 (by decide)).2.2.1.2⟩⟩

/-! ### C8 -/

/-- Claim C8 (bug exhibit): because process_photo constructs a fresh
threading.Semaphore(MAX_WORKERS) local to each request, admission never
blocks, and a state with MAX_WORKERS + 1 = 3 simultaneously admitted
detection calls is reachable, contradicting the bounded-admission claim
(and the source's own comment "Limit concurrent processing"). -/
theorem process_photo_admission_unbounded :
    ProcessPhotoReachable (appMAX_WORKERS + 1) := by
  have h : 0 < freshSemaphoreCount := by decide
  exact ProcessPhotoReachable.enter _
    (ProcessPhotoReachable.enter _
      (ProcessPhotoReachable.enter _ ProcessPhotoReachable.start h) h) h

/-! ### C9 -/

/-- Claim C9: get_performance_stats returns a copy, not a live reference: the
snapshot (on a CPU session) leaves the internal stats dict unchanged, the
returned dict lives at a different address, and writing any entry of the
returned dict leaves the internal dict's content untouched. -/
theorem get_performance_stats_returns_copy
    (h : Heap) (statsAddr : Nat) (gpuMemInfo v : ℚ) (k : String)
    (hlt : statsAddr < h.next) :
    (get_performance_stats false gpuMemInfo statsAddr h).1.mem statsAddr
      = h.mem statsAddr ∧
    (get_performance_stats false gpuMemInfo statsAddr h).2 ≠ statsAddr ∧
    ((get_performance_stats false gpuMemInfo statsAddr h).1.write
        (get_performance_stats false gpuMemInfo statsAddr h).2 k v).mem statsAddr
      = h.mem statsAddr := by
  have hne : statsAddr ≠ h.next := Nat.ne_of_lt hlt
  refine ⟨?_, ?_, ?_⟩
  · simp only [get_performance_stats, Heap.alloc, Heap.write]
    split_ifs <;> simp_all [hne]
  · exact fun hEq => hne hEq.symm
  · simp only [get_performance_stats, Heap.alloc, Heap.write]
    split_ifs <;> simp_all [hne]

def heap0 : Heap := { mem := fun _ => fun _ => none, next := 1 }

theorem get_performance_stats_returns_copy_witness :
    0 < heap0.next ∧
    (get_performance_stats false 0 0 heap0).1.mem 0 = heap0.mem 0 ∧
    (get_performance_stats false 0 0 heap0).2 ≠ 0 ∧
    ((get_performance_stats false 0 0 heap0).1.write
        (get_performance_stats false 0 0 heap0).2 "total_processed" 5).mem 0
      = heap0.mem 0 :=
  ⟨by decide,
   (get_performance_stats_returns_copy heap0 0 0 5 "total_processed" (by decide)).1,
   (get_performance_stats_returns_copy heap0 0 0 5 "total_processed" (by decide)).2.1,
   (get_performance_stats_returns_copy heap0 0 0 5 "total_processed" (by decide)).2.2⟩

/-! ### C10 -/

/-- Claim C10: the snapshot contains faces_per_second = 1 / average_processing_time
exactly when the average is positive, and omits the entry when the average
is 0 (before any successful detection), so the division is never performed
with a zero divisor. -/
theorem faces_per_second_guard
    (h : Heap) (statsAddr : Nat) (gpuMemInfo : ℚ) (using_gpu : Bool)
    (hlt : statsAddr < h.next)
    (hnofps : h.mem statsAddr "faces_per_second" = none) :
    (0 < (h.mem statsAddr "average_processing_time").getD 0 →
      (get_performance_stats using_gpu gpuMemInfo statsAddr h).1.mem
          (get_performance_stats using_gpu gpuMemInfo statsAddr h).2 "faces_per_second"
        = some (1 / (h.mem statsAddr "average_processing_time").getD 0)) ∧
    ((h.mem statsAddr "average_processing_time").getD 0 = 0 →
      (get_performance_stats using_gpu gpuMemInfo statsAddr h).1.mem
          (get_performance_stats using_gpu gpuMemInfo statsAddr h).2 "faces_per_second"
        = none) ∧
    ((get_performance_stats using_gpu gpuMemInfo statsAddr h).1.mem
        (get_performance_stats using_gpu gpuMemInfo statsAddr h).2 "faces_per_second"
        ≠ none →
      0 < (h.mem statsAddr "average_processing_time").getD 0) := by
  have hne : statsAddr ≠ h.next := Nat.ne_of_lt hlt
  have hcopy : ∀ b : Bool,
      ((if b then
          ((h.alloc (h.mem statsAddr)).1.write statsAddr "gpu_memory_usage" gpuMemInfo)
        else (h.alloc (h.mem statsAddr)).1).mem (h.alloc (h.mem statsAddr)).2)
        = h.mem statsAddr := by
    intro b
    cases b <;> simp [Heap.alloc, Heap.write, Ne.symm hne]
  refine ⟨?_, ?_, ?_⟩
  · intro hpos
    simp only [get_performance_stats]
    rw [hcopy using_gpu]
    rw [if_pos hpos]
    simp [Heap.write, StatsMap.set, Heap.alloc]
  · intro hzero
    simp only [get_performance_stats]
    rw [hcopy using_gpu]
    rw [if_neg (by rw [hzero]; exact lt_irrefl 0)]
    rw [hcopy using_gpu]
    exact hnofps
  · intro hsome
    by_contra hnp
    apply hsome
    simp only [get_performance_stats] at hsome ⊢
    rw [hcopy using_gpu] at hsome ⊢
    rw [if_neg hnp] at hsome ⊢
    rw [hcopy using_gpu]
    exact hnofps

/-- A stats dict whose average_processing_time is 2 and that has no
faces_per_second entry. -/
def heapAvg2 : Heap :=
  { mem := fun _ => fun s => if s = "average_processing_time" then some 2 else none
    next := 1 }

theorem faces_per_second_guard_witness :
    0 < heapAvg2.next ∧
    heapAvg2.mem 0 "faces_per_second" = none ∧
    0 < (heapAvg2.mem 0 "average_processing_time").getD 0 ∧
    (get_performance_stats false 0 0 heapAvg2).1.mem
        (get_performance_stats false 0 0 heapAvg2).2 "faces_per_second"
      = some (1 / (heapAvg2.mem 0 "average_processing_time").getD 0) :=
  ⟨by decide, by decide, by decide,
   (faces_per_second_guard heapAvg2 0 0 false (by decide) (by decide)).1 (by decide)⟩

/-! ### Dot-product lemmas for the similarity claims -/

theorem dotQ_nil_right (p : List ℚ) : dotQ p [] = 0 := by
  cases p <;> rfl

theorem dotQ_cons (a b : ℚ) (p c : List ℚ) :
    dotQ (a :: p) (b :: c) = a * b + dotQ p c := by
  simp [dotQ]

theorem dotQ_self_nonneg (v : List ℚ) : 0 ≤ dotQ v v := by
  induction v with
  | nil => exact le_refl 0
  | cons a t ih =>
      rw [dotQ_cons]
      exact add_nonneg (mul_self_nonneg a) ih

/-- Cauchy-Schwarz for list dot products. -/
theorem dotQ_cauchy_schwarz (p c : List ℚ) :
    dotQ p c ^ 2 ≤ dotQ p p * dotQ c c := by
  induction p generalizing c with
  | nil => simp [dotQ, mul_nonneg (dotQ_self_nonneg [] ) (dotQ_self_nonneg c)]
  | cons a p ih =>
      cases c with
      | nil => simp [dotQ_nil_right, dotQ_cons, add_nonneg (mul_self_nonneg a) (dotQ_self_nonneg p)]
      | cons b c =>
          have h1 := ih c
          have hP := dotQ_self_nonneg p
          have hC := dotQ_self_nonneg c
          rw [dotQ_cons, dotQ_cons, dotQ_cons]
          rcases eq_or_lt_of_le hC with hC0 | hCpos
          · rw [← hC0] at h1
            have hS2 : dotQ p c ^ 2 ≤ 0 := by simpa using h1
            have hS : dotQ p c = 0 :=
              (pow_eq_zero_iff (two_ne_zero)).mp (le_antisymm hS2 (sq_nonneg _))
            rw [hS, ← hC0]
            nlinarith [mul_nonneg (mul_self_nonneg b) hP]
          · nlinarith [sq_nonneg (a * dotQ c c - b * dotQ p c),
              mul_nonneg (mul_self_nonneg b) (sub_nonneg.mpr h1),
              mul_nonneg hC (sub_nonneg.mpr h1), hCpos]

theorem dotQ_replicate_one (n : Nat) :
    dotQ (List.replicate n 1) (List.replicate n 1) = (n : ℚ) := by
  induction n with
  | zero => rfl
  | succ k ih =>
      rw [List.replicate_succ, dotQ_cons, ih]
      push_cast
      ring

/-! ### C6 -/

/-- Claim C6: for every probe and candidate embedding of equal length 512 (with
nonzero Euclidean norms, as division by a zero float norm would not yield
a number), the cosine similarity dot(p, c) / (norm p * norm c) lies in
the interval from -1 to 1. -/
theorem cosine_similarity_mem_Icc (p c : List ℚ)
    (hp : p.length = 512) (hc : c.length = 512)
    (hpn : 0 < dotQ p p) (hcn : 0 < dotQ c c) :
    -1 ≤ cosineSimilarity p c ∧ cosineSimilarity p c ≤ 1 := by
  have hD : 0 < normQ p * normQ c := by
    apply mul_pos
    · exact Real.sqrt_pos.mpr (by exact_mod_cast hpn)
    · exact Real.sqrt_pos.mpr (by exact_mod_cast hcn)
  have hcs : ((dotQ p c : ℚ) : ℝ) ^ 2 ≤ ((dotQ p p : ℚ) : ℝ) * ((dotQ c c : ℚ) : ℝ) := by
    exact_mod_cast dotQ_cauchy_schwarz p c
  have habs : |((dotQ p c : ℚ) : ℝ)| ≤ normQ p * normQ c := by
    calc |((dotQ p c : ℚ) : ℝ)|
        = Real.sqrt (((dotQ p c : ℚ) : ℝ) ^ 2) := (Real.sqrt_sq_eq_abs _).symm
      _ ≤ Real.sqrt (((dotQ p p : ℚ) : ℝ) * ((dotQ c c : ℚ) : ℝ)) := Real.sqrt_le_sqrt hcs
      _ = normQ p * normQ c := Real.sqrt_mul (by exact_mod_cast le_of_lt hpn) _
  have hone : |cosineSimilarity p c| ≤ 1 := by
    rw [cosineSimilarity, abs_div, abs_of_pos hD]
    rw [div_le_one hD]
    exact habs
  exact abs_le.mp hone

theorem cosine_similarity_mem_Icc_witness :
    (List.replicate 512 (1 : ℚ)).length = 512 ∧
    0 < dotQ (List.replicate 512 (1 : ℚ)) (List.replicate 512 (1 : ℚ)) ∧
    (-1 ≤ cosineSimilarity (List.replicate 512 (1 : ℚ)) (List.replicate 512 (1 : ℚ)) ∧
      cosineSimilarity (List.replicate 512 (1 : ℚ)) (List.replicate 512 (1 : ℚ)) ≤ 1) :=
  have hlen : (List.replicate 512 (1 : ℚ)).length = 512 := List.length_replicate 512 1
  have hpos : 0 < dotQ (List.replicate 512 (1 : ℚ)) (List.replicate 512 (1 : ℚ)) := by
    rw [dotQ_replicate_one]
    exact_mod_cast Nat.zero_lt_succ 511
  ⟨hlen, hpos,
   cosine_similarity_mem_Icc (List.replicate 512 (1 : ℚ)) (List.replicate 512 (1 : ℚ))
     hlen hlen hpos hpos⟩

/-! ### C5 -/

/-- The sort produced in compare_faces is pairwise descending by similarity. -/
theorem compare_faces_matches_sorted (selfie : List ℚ)
    (embeddings : List StoredEmbedding) :
    List.Sorted (fun a b : MatchResult => b.similarity ≤ a.similarity)
      (compare_faces_matches selfie embeddings) := by
  have hp : List.Pairwise
      (fun a b : MatchResult => (decide (b.similarity ≤ a.similarity)) = true)
      (compare_faces_matches selfie embeddings) := by
    apply List.sorted_mergeSort
    · intro a b c h1 h2
      simp only [decide_eq_true_eq] at h1 h2 ⊢
      exact le_trans h2 h1
    · intro a b
      simp only [Bool.or_eq_true, decide_eq_true_eq]
      exact le_total b.similarity a.similarity
  exact hp.imp (fun hd => by simpa using hd)

/-- The sort output is a permutation of the per-candidate match list. -/
theorem compare_faces_matches_perm_map (selfie : List ℚ)
    (embeddings : List StoredEmbedding) :
    (compare_faces_matches selfie embeddings).Perm
      (embeddings.map fun stored =>
        MatchResult.mk stored.photoId
          (cosineSimilarity selfie stored.embedding)) :=
  List.mergeSort_perm _ _

/-- Claim C5: for every probe embedding and non-empty candidate list, the match
results are sorted descending by similarity, and permuting the input
candidates yields a permutation of the same results with an identical
sequence of similarity values (the ranking is unchanged up to order among
exactly equal similarities). -/
theorem compare_faces_sorted_desc_perm_invariant
    (selfie : List ℚ) (embeddings embeddings2 : List StoredEmbedding)
    (hne : embeddings ≠ [])
    (hperm : embeddings.Perm embeddings2) :
    List.Sorted (fun a b : MatchResult => b.similarity ≤ a.similarity)
      (compare_faces_matches selfie embeddings) ∧
    (compare_faces_matches selfie embeddings2).Perm
      (compare_faces_matches selfie embeddings) ∧
    (compare_faces_matches selfie embeddings2).map MatchResult.similarity
      = (compare_faces_matches selfie embeddings).map MatchResult.similarity := by
  have hs1 := compare_faces_matches_sorted selfie embeddings
  have hs2 := compare_faces_matches_sorted selfie embeddings2
  have houtperm : (compare_faces_matches selfie embeddings2).Perm
      (compare_faces_matches selfie embeddings) :=
    ((compare_faces_matches_perm_map selfie embeddings2).trans
        ((hperm.map _).symm)).trans
      (compare_faces_matches_perm_map selfie embeddings).symm
  refine ⟨hs1, houtperm, ?_⟩
  have hmapperm :
      ((compare_faces_matches selfie embeddings2).map MatchResult.similarity).Perm
        ((compare_faces_matches selfie embeddings).map MatchResult.similarity) :=
    houtperm.map _
  have hms1 : List.Sorted (fun x y : ℝ => y ≤ x)
      ((compare_faces_matches selfie embeddings).map MatchResult.similarity) :=
    (List.pairwise_map).mpr hs1
  have hms2 : List.Sorted (fun x y : ℝ => y ≤ x)
      ((compare_faces_matches selfie embeddings2).map MatchResult.similarity) :=
    (List.pairwise_map).mpr hs2
  haveI : IsAntisymm ℝ (fun x y : ℝ => y ≤ x) :=
    ⟨fun a b h1 h2 => le_antisymm h2 h1⟩
  exact List.eq_of_perm_of_sorted hmapperm hms2 hms1

def storedA : StoredEmbedding := { photoId := "a", embedding := [1, 0] }

def storedB : StoredEmbedding := { photoId := "b", embedding := [0, 1] }

theorem compare_faces_sorted_desc_perm_invariant_witness :
    ([storedA, storedB] : List StoredEmbedding) ≠ [] ∧
    ([storedA, storedB] : List StoredEmbedding).Perm [storedB, storedA] ∧
    (List.Sorted (fun a b : MatchResult => b.similarity ≤ a.similarity)
        (compare_faces_matches [1, 0] [storedA, storedB]) ∧
      (compare_faces_matches [1, 0] [storedB, storedA]).Perm
        (compare_faces_matches [1, 0] [storedA, storedB]) ∧
      (compare_faces_matches [1, 0] [storedB, storedA]).map MatchResult.similarity
        = (compare_faces_matches [1, 0] [storedA, storedB]).map MatchResult.similarity) :=
  ⟨List.cons_ne_nil _ _, List.Perm.swap storedB storedA [],
   compare_faces_sorted_desc_perm_invariant [1, 0] [storedA, storedB]
     [storedB, storedA] (List.cons_ne_nil _ _) (List.Perm.swap storedB storedA [])⟩

end PinMyPic
